import Mathlib

/-!
# Verification of the Timeweb Cloud MCP server (webkoth/mcp-timeweb)

A shallow embedding of the parts of the TypeScript source that the
specification's testable properties are about:

* `src/services/api.ts` (shipped as `src/unnamed/part_000`, second segment):
  the API-client singleton (`initializeApiClient`, `getApiClient`,
  `makeApiRequest`), the error translator `handleApiError`, and the value
  formatters `formatBytes` and `buildPaginationResponse`.
* `src/index.ts` (first segment of `part_000`): the startup token gate.
* `src/tools/servers.ts`: `formatServer`, the `timeweb_list_servers` and
  `timeweb_create_server` handlers.
* `src/tools/databases.ts` (first segment of `part_001`): `formatDatabase`,
  the `timeweb_list_databases`, `timeweb_get_database` and
  `timeweb_create_database` handlers.
* `src/schemas/common.ts` (`part_007`): the zod pagination schema bounds.

Modelling conventions: JavaScript numbers that the program only ever uses as
non-negative integers (ids, byte counts, limits, offsets, totals) are
modelled as `Nat`; JavaScript `x || d` on numbers and strings is modelled by
explicit falsiness tests (`0` and `""` are falsy); optional values and
possibly-`null`/`undefined` fields are `Option`; a rejected promise from the
HTTP layer is the `Except.error` case, and a handler without `try`/`catch`
propagates it by `match`.  `Math.log(b)/Math.log(1024)` is modelled by the
exact base-1024 floor logarithm and `toFixed(2)`/`parseFloat` by exact
rational rounding to hundredths followed by dropping trailing zeros; the
double-precision computation agrees with the exact one on every input the
spec mentions.
-/

namespace Timeweb

/-! ## JavaScript truthiness helpers -/

/-- JS `x || d` for an optional number: `undefined` and `0` are falsy. -/
def jsOrNat (x : Option Nat) (d : Nat) : Nat :=
  match x with
  | none => d
  | some v => if v = 0 then d else v

/-- JS `x || d` for an optional string: `undefined` and `""` are falsy. -/
def jsOrStr (x : Option String) (d : String) : String :=
  match x with
  | none => d
  | some s => if s = "" then d else s

/-- JS truthiness of an optional number. -/
def truthyNat (x : Option Nat) : Bool :=
  match x with
  | none => false
  | some v => v != 0

/-- JS truthiness of an optional string. -/
def truthyStr (x : Option String) : Bool :=
  match x with
  | none => false
  | some s => s != ""

/-- JS `${n}` / `n || fallback` display of an optional number:
a missing or zero value renders the fallback text. -/
def jsNumDisplay (x : Option Nat) (fallback : String) : String :=
  match x with
  | none => fallback
  | some v => if v = 0 then fallback else toString v

/-! ## Constants (`src/constants.ts`) -/

def API_BASE_URL : String := "https://api.timeweb.cloud"

def DEFAULT_LIMIT : Nat := 50

def MAX_LIMIT : Nat := 100

def REQUEST_TIMEOUT : Nat := 30000

/-! ## `formatBytes` (`src/services/api.ts` lines 213-219)

```
export function formatBytes(bytes: number): string {
  if (bytes === 0) return "0 B";
  const k = 1024;
  const sizes = ["B", "KB", "MB", "GB", "TB"];
  const i = Math.floor(Math.log(bytes) / Math.log(k));
  return parseFloat((bytes / Math.pow(k, i)).toFixed(2)) + " " + sizes[i];
}
```
-/

/-- Fuel-driven base-1024 floor logarithm; with `fuel ≥ n` it computes
the largest `i` with `1024 ^ i ≤ n` (for `n ≥ 1`), which is the exact value
of `Math.floor(Math.log n / Math.log 1024)`. -/
def logFloorAux : Nat → Nat → Nat
  | 0, _ => 0
  | fuel + 1, n => if n < 1024 then 0 else logFloorAux fuel (n / 1024) + 1

/-- Exact model of `Math.floor(Math.log bytes / Math.log 1024)`. -/
def mathLogFloor1024 (n : Nat) : Nat :=
  logFloorAux n n

/-- Exact model of `parseFloat((num / den).toFixed(2))` rendered back to a
string by JS string concatenation: round `num / den` half-up to hundredths,
then drop trailing zeros of the fractional part. -/
def toFixed2Display (num den : Nat) : String :=
  let r := (200 * num + den) / (2 * den)
  let intPart := r / 100
  let frac := r % 100
  if frac = 0 then toString intPart
  else if frac % 10 = 0 then toString intPart ++ "." ++ toString (frac / 10)
  else if frac < 10 then toString intPart ++ ".0" ++ toString frac
  else toString intPart ++ "." ++ toString frac

/-- The `sizes` array of `formatBytes`. -/
def sizes : List String := ["B", "KB", "MB", "GB", "TB"]

/-- JS array indexing `sizes[i]` followed by string concatenation: an
out-of-range index yields `undefined`, which concatenates as "undefined". -/
def sizesGet (i : Nat) : String :=
  (sizes.get? i).getD "undefined"

/-- `formatBytes` from `src/services/api.ts`. -/
def formatBytes (bytes : Nat) : String :=
  if bytes = 0 then "0 B"
  else
    let i := mathLogFloor1024 bytes
    toFixed2Display bytes (1024 ^ i) ++ " " ++ sizesGet i

/-! ## `buildPaginationResponse` (`src/services/api.ts` lines 234-244)

```
export function buildPaginationResponse(total, limit, offset) {
  const currentPage = Math.floor(offset / limit) + 1;
  const totalPages = Math.ceil(total / limit);
  const hasMore = offset + limit < total;
  return `Showing ${offset + 1}-${Math.min(offset + limit, total)} of ${total}
    items (Page ${currentPage}/${totalPages})${hasMore ? "..." : ""}`;
}
```
`Math.floor(offset / limit)` on naturals is `Nat` division and
`Math.ceil(total / limit)` is `(total + limit - 1) / limit` (for `limit ≥ 1`).
-/

/-- The "more results" suffix appended when `offset + limit < total`. -/
def moreResultsNote : String := "\n*Use offset parameter to see more results.*"

/-- `buildPaginationResponse` from `src/services/api.ts`. -/
def buildPaginationResponse (total limit offset : Nat) : String :=
  let currentPage := offset / limit + 1
  let totalPages := (total + limit - 1) / limit
  let hasMore := offset + limit < total
  "Showing " ++ toString (offset + 1) ++ "-" ++ toString (min (offset + limit) total)
    ++ " of " ++ toString total ++ " items (Page " ++ toString currentPage ++ "/"
    ++ toString totalPages ++ ")"
    ++ (if hasMore then moreResultsNote else "")

/-! ## `handleApiError` (`src/services/api.ts` lines 154-193) -/

/-- The `data.message` field of a failed response: a string or an array of
strings (joined with ", "), or absent. -/
inductive MsgField where
  | str (s : String)
  | arr (xs : List String)
deriving DecidableEq

/-- The `error.response` of an `AxiosError`: HTTP status plus the optional
`data.message`. -/
structure HttpResp where
  status : Nat
  message : Option MsgField
deriving DecidableEq

/-- The value caught by an error handler: an `AxiosError` (with an optional
`response` and an optional `code` such as "ECONNABORTED", and the inherited
`Error.message`), some other `Error`, or a non-`Error` thrown value. -/
inductive JsError where
  | axios (response : Option HttpResp) (code : Option String) (msg : String)
  | plain (msg : String)
  | nonError (display : String)
deriving DecidableEq

/-- The `message` local of `handleApiError`: `""` unless `data?.message` is
present, a string kept as is, an array joined with ", ". -/
def errMessageText (m : Option MsgField) : String :=
  match m with
  | none => ""
  | some (.str s) => s
  | some (.arr xs) => String.intercalate ", " xs

/-- `handleApiError` from `src/services/api.ts`: the status-code switch,
the two network-failure codes, and the generic fallback. -/
def handleApiError (error : JsError) : String :=
  match error with
  | .axios (some r) _ _ =>
    let message := errMessageText r.message
    match r.status with
    | 400 => "Error: Bad request. " ++ (if message = "" then "Please check your parameters." else message)
    | 401 => "Error: Authentication failed. Please check your API token."
    | 403 => "Error: Permission denied. " ++ (if message = "" then "You don't have access to this resource." else message)
    | 404 => "Error: Resource not found. " ++ (if message = "" then "Please check the ID is correct." else message)
    | 409 => "Error: Conflict. " ++ (if message = "" then "The request conflicts with the current state." else message)
    | 423 => "Error: Resource locked. " ++ (if message = "" then "The resource is locked from this operation." else message)
    | 429 => "Error: Rate limit exceeded. Please wait before making more requests."
    | 500 => "Error: Internal server error. " ++ (if message = "" then "Please try again later or contact support." else message)
    | status => "Error: API request failed with status " ++ toString status ++ ". " ++ message
  | .axios none code msg =>
    if code = some "ECONNABORTED" then "Error: Request timed out. Please try again."
    else if code = some "ENOTFOUND" then "Error: Could not connect to Timeweb Cloud API. Check your network connection."
    else "Error: Unexpected error occurred: " ++ msg
  | .plain msg => "Error: Unexpected error occurred: " ++ msg
  | .nonError display => "Error: Unexpected error occurred: " ++ display

/-! ## API client singleton (`src/services/api.ts` lines 102-149) and the
startup token gate (`src/index.ts` lines 38-55) -/

/-- The axios instance configuration created by `initializeApiClient`. -/
structure ApiClientConfig where
  baseURL : String
  timeout : Nat
  bearerToken : String
deriving DecidableEq

/-- `initializeApiClient`: builds the singleton's value.  The module-level
mutable `apiClient` variable is modelled by passing `Option ApiClientConfig`
(`none` = never initialized) to the functions that read it. -/
def initializeApiClient (token : String) : ApiClientConfig :=
  ⟨API_BASE_URL, REQUEST_TIMEOUT, token⟩

/-- `getApiClient`: throws if the singleton was never initialized. -/
def getApiClient (apiClient : Option ApiClientConfig) : Except String ApiClientConfig :=
  match apiClient with
  | none => .error "API client not initialized. Set TIMEWEB_CLOUD_TOKEN environment variable."
  | some c => .ok c

/-- The one outbound HTTP request `makeApiRequest` issues, carrying the
client's bearer token. -/
structure OutboundRequest where
  bearerToken : String
  method : String
  url : String
deriving DecidableEq

/-- `makeApiRequest`: obtains the client (failing if uninitialized, before
any request is built) and performs the single HTTP request, modelled as the
request it puts on the wire. -/
def makeApiRequest (apiClient : Option ApiClientConfig) (method url : String) :
    Except String OutboundRequest :=
  match getApiClient apiClient with
  | .error e => .error e
  | .ok client => .ok ⟨client.bearerToken, method, url⟩

/-- Outcome of `main`'s startup sequence. -/
inductive StartupOutcome where
  | exitNoToken (code : Nat)
  | running (client : ApiClientConfig) (toolsRegistered : Bool)
deriving DecidableEq

/-- The startup gate of `main` (`src/index.ts`): `process.env.TIMEWEB_CLOUD_TOKEN`
falsy (absent or empty) exits with code 1 before `initializeApiClient` and
before any `register*Tools` call; otherwise the client is initialized and all
tools are registered. -/
def mainStartup (env : Option String) : StartupOutcome :=
  match env with
  | none => .exitNoToken 1
  | some token =>
    if token = "" then .exitNoToken 1
    else .running (initializeApiClient token) true

/-! ## Output mode (`src/types.ts` `ResponseFormat`) -/

/-- The `ResponseFormat` enum: "markdown" or "json". -/
inductive ResponseFormat where
  | markdown
  | json
deriving DecidableEq

/-- The content returned by a tool handler: one `{type: "text", text}` block. -/
structure ToolResult where
  text : String
deriving DecidableEq

/-! ## JSON values and `JSON.stringify(v, null, 2)`

The structured ("json") output mode serializes the response payload with
`JSON.stringify(value, null, 2)`.  JavaScript objects preserve insertion
order of string keys, so an object is a list of key/value pairs. -/

/-- A JSON value. -/
inductive Json where
  | str (s : String)
  | num (n : Nat)
  | bool (b : Bool)
  | null
  | arr (elems : List Json)
  | obj (fields : List (String × Json))

/-- Escape a string for a JSON string literal (quote, backslash, newline —
the only special characters the modelled payloads can contain). -/
def jsonEscape (s : String) : String :=
  String.mk (s.data.foldr (fun c acc =>
    if c = Char.ofNat 34 then Char.ofNat 92 :: Char.ofNat 34 :: acc
    else if c = Char.ofNat 92 then Char.ofNat 92 :: Char.ofNat 92 :: acc
    else if c = Char.ofNat 10 then Char.ofNat 92 :: Char.ofNat 110 :: acc
    else c :: acc) [])

/-- Two-space indentation at nesting depth `d`. -/
def jsonIndent (d : Nat) : String :=
  String.mk (List.replicate (2 * d) (Char.ofNat 32))

mutual

/-- `JSON.stringify` with two-space indentation, at nesting depth `d`. -/
def jsonStringifyAt (d : Nat) : Json → String
  | .str s => "\"" ++ jsonEscape s ++ "\""
  | .num n => toString n
  | .bool b => if b then "true" else "false"
  | .null => "null"
  | .arr [] => "[]"
  | .arr (x :: xs) =>
    "[\n" ++ jsonStringifyItems (d + 1) x xs ++ "\n" ++ jsonIndent d ++ "]"
  | .obj [] => "\x7b\x7d"
  | .obj (f :: fs) =>
    "\x7b\n" ++ jsonStringifyFields (d + 1) f fs ++ "\n" ++ jsonIndent d ++ "\x7d"
termination_by j => sizeOf j
decreasing_by all_goals (simp_wf; try omega)

/-- Array elements, one per line, comma-separated. -/
def jsonStringifyItems (d : Nat) (x : Json) (xs : List Json) : String :=
  match x, xs with
  | x, [] => jsonIndent d ++ jsonStringifyAt d x
  | x, y :: ys => jsonIndent d ++ jsonStringifyAt d x ++ ",\n" ++ jsonStringifyItems d y ys
termination_by sizeOf x + sizeOf xs
decreasing_by all_goals (simp_wf; try omega)

/-- Object fields, one per line, comma-separated. -/
def jsonStringifyFields (d : Nat) (f : String × Json) (fs : List (String × Json)) : String :=
  match f, fs with
  | (k, v), [] => jsonIndent d ++ "\"" ++ jsonEscape k ++ "\": " ++ jsonStringifyAt d v
  | (k, v), g :: gs => jsonIndent d ++ "\"" ++ jsonEscape k ++ "\": " ++ jsonStringifyAt d v
      ++ ",\n" ++ jsonStringifyFields d g gs
termination_by sizeOf f + sizeOf fs
decreasing_by all_goals (simp_wf; try omega)

end

/-- `JSON.stringify(v, null, 2)`. -/
def jsonStringify2 (v : Json) : String :=
  jsonStringifyAt 0 v

/-! ## Servers domain (`src/tools/servers.ts`) -/

/-- The `configurator` sub-object of a server. -/
structure Configurator where
  cpu : Nat
  ram : Nat
  disk : Nat
deriving DecidableEq

/-- The `os` sub-object of a server (`name`, nullable `version`). -/
structure OsInfo where
  name : String
  version : Option String
deriving DecidableEq

/-- The fields of a `Server` resource descriptor that the servers tools
read (`src/types.ts` declares many more, all pass-through). -/
structure Server where
  id : Nat
  name : String
  status : String
  location : String
  os : Option OsInfo
  configurator : Option Configurator
  cpu : Nat
  ram : Nat
  main_ipv4 : Option String
  bandwidth : Option Nat
  created_at : String
deriving DecidableEq

/-- `formatServer` from `src/tools/servers.ts` lines 8-19. -/
def formatServer (srv : Server) : String :=
  "## " ++ srv.name ++ " (ID: " ++ toString srv.id ++ ")\n"
    ++ "- **Status:** " ++ srv.status ++ "\n"
    ++ "- **Location:** " ++ srv.location ++ "\n"
    ++ "- **OS:** " ++ jsOrStr (srv.os.map (fun o => o.name)) "N/A" ++ " "
    ++ jsOrStr (srv.os.bind (fun o => o.version)) "" ++ "\n"
    ++ "- **CPU:** "
    ++ jsNumDisplay (srv.configurator.map (fun c => c.cpu))
        (jsNumDisplay (some srv.cpu) "N/A") ++ " cores\n"
    ++ "- **RAM:** "
    ++ (match srv.configurator with
        | some c => if c.ram ≠ 0 then formatBytes (c.ram * 1024 * 1024)
                    else formatBytes (srv.ram * 1024 * 1024)
        | none => formatBytes (srv.ram * 1024 * 1024)) ++ "\n"
    ++ "- **Disk:** "
    ++ (match srv.configurator with
        | some c => if c.disk ≠ 0 then formatBytes (c.disk * 1024 * 1024) else "N/A"
        | none => "N/A") ++ "\n"
    ++ "- **Main IP:** " ++ jsOrStr srv.main_ipv4 "N/A" ++ "\n"
    ++ "- **Bandwidth:** "
    ++ (match srv.bandwidth with
        | some b => if b ≠ 0 then formatBytes b ++ "/s" else "N/A"
        | none => "N/A") ++ "\n"
    ++ "- **Created:** " ++ srv.created_at

/-- Serialization of the modelled `Server` fields back to JSON for the
structured output mode (nullable fields serialize as `null`, optional
properties that are absent are omitted, as `JSON.stringify` does). -/
def serverToJson (srv : Server) : Json :=
  .obj ([("id", .num srv.id), ("name", .str srv.name), ("status", .str srv.status),
    ("location", .str srv.location),
    ("os", match srv.os with
      | some o => .obj [("name", .str o.name),
          ("version", match o.version with | some v => .str v | none => .null)]
      | none => .null)]
    ++ (match srv.configurator with
        | some c => [("configurator",
            Json.obj [("cpu", .num c.cpu), ("ram", .num c.ram), ("disk", .num c.disk)])]
        | none => [])
    ++ [("cpu", .num srv.cpu), ("ram", .num srv.ram)]
    ++ (match srv.main_ipv4 with | some ip => [("main_ipv4", Json.str ip)] | none => [])
    ++ (match srv.bandwidth with | some b => [("bandwidth", Json.num b)] | none => [])
    ++ [("created_at", .str srv.created_at)])

/-- Arguments of a paginated list tool: `limit`, `offset` (both optional
numbers) and the optional output `format`. -/
structure ListArgs where
  limit : Option Nat
  offset : Option Nat
  format : Option ResponseFormat
deriving DecidableEq

/-- The parsed body of a successful `GET /api/v1/servers` response:
the `servers` array and `meta.total`, both possibly absent. -/
structure ServersResp where
  servers : Option (List Server)
  total : Option Nat
deriving DecidableEq

/-- The `{servers, total, limit, offset}` JSON document emitted by the
structured branch of `timeweb_list_servers`. -/
def listServersJsonText (servers : List Server) (total limit offset : Nat) : String :=
  jsonStringify2 (.obj [("servers", .arr (servers.map serverToJson)),
    ("total", .num total), ("limit", .num limit), ("offset", .num offset)])

/-- The `timeweb_list_servers` handler (`src/tools/servers.ts` lines 30-65).
`api` is the settled transport call (the handler has no `try`/`catch`, so a
rejection propagates). -/
def listServersHandler (args : ListArgs) (api : Except JsError ServersResp) :
    Except JsError ToolResult :=
  let limit := min (jsOrNat args.limit DEFAULT_LIMIT) MAX_LIMIT
  let offset := jsOrNat args.offset 0
  let format := args.format.getD .markdown
  match api with
  | .error e => .error e
  | .ok response =>
    let servers := response.servers.getD []
    let total := jsOrNat response.total servers.length
    if format = .json then
      .ok ⟨listServersJsonText servers total limit offset⟩
    else if servers.length = 0 then
      .ok ⟨"No servers found."⟩
    else
      .ok ⟨"# Cloud Servers\n\n" ++ buildPaginationResponse total limit offset
        ++ "\n\n" ++ String.intercalate "\n\n" (servers.map formatServer)⟩

/-- Arguments of `timeweb_create_server` (`src/tools/servers.ts` lines
100-110): `name` and `os_id` are required, the rest optional. -/
structure CreateServerArgs where
  name : String
  os_id : Nat
  preset_id : Option Nat
  cpu : Option Nat
  ram : Option Nat
  disk : Option Nat
  bandwidth : Option Nat
  location : Option String
  ssh_keys_ids : Option (List Nat)
  is_ddos_guard : Option Bool
deriving DecidableEq

/-- The `configurator` object assembled by the `timeweb_create_server`
handler's else-branch: each of `cpu`, `ram`, `disk` is copied only when
truthy, in that insertion order. -/
def createServerConfigurator (args : CreateServerArgs) : List (String × Json) :=
  (if truthyNat args.cpu then [("cpu", Json.num (args.cpu.getD 0))] else [])
    ++ (if truthyNat args.ram then [("ram", Json.num (args.ram.getD 0))] else [])
    ++ (if truthyNat args.disk then [("disk", Json.num (args.disk.getD 0))] else [])

/-- The request body assembled by the `timeweb_create_server` handler
(`src/tools/servers.ts` lines 115-131): `name` and `os_id` always; then
either a truthy `preset_id` or the `configurator` built from truthy
`cpu`/`ram`/`disk`; then `bandwidth` and `location` when truthy,
`ssh_keys_ids` when not undefined (any array is truthy), and
`is_ddos_guard` when not strictly undefined. -/
def createServerBody (args : CreateServerArgs) : List (String × Json) :=
  [("name", Json.str args.name), ("os_id", Json.num args.os_id)]
    ++ (if truthyNat args.preset_id then [("preset_id", Json.num (args.preset_id.getD 0))]
        else if (createServerConfigurator args).isEmpty then []
        else [("configurator", Json.obj (createServerConfigurator args))])
    ++ (if truthyNat args.bandwidth then [("bandwidth", Json.num (args.bandwidth.getD 0))] else [])
    ++ (if truthyStr args.location then [("location", Json.str (args.location.getD ""))] else [])
    ++ (match args.ssh_keys_ids with
        | some ks => [("ssh_keys_ids", Json.arr (ks.map Json.num))]
        | none => [])
    ++ (match args.is_ddos_guard with
        | some b => [("is_ddos_guard", Json.bool b)]
        | none => [])

/-! ## Databases domain (`src/tools/databases.ts`, first segment of
`src/unnamed/part_001`) -/

/-- The `admin` sub-object of a database cluster. -/
structure DbAdmin where
  login : String
deriving DecidableEq

/-- The fields of a `DatabaseCluster` resource descriptor that the database
tools read. -/
structure Database where
  id : Nat
  name : String
  dbType : String
  status : String
  location : String
  host : Option String
  port : Nat
  admin : Option DbAdmin
  created_at : String
deriving DecidableEq

/-- `formatDatabase` from `src/tools/databases.ts` lines 8-17. -/
def formatDatabase (db : Database) : String :=
  "## " ++ db.name ++ " (ID: " ++ toString db.id ++ ")\n"
    ++ "- **Type:** " ++ db.dbType ++ "\n"
    ++ "- **Status:** " ++ db.status ++ "\n"
    ++ "- **Location:** " ++ db.location ++ "\n"
    ++ "- **Host:** " ++ jsOrStr db.host "N/A" ++ "\n"
    ++ "- **Port:** " ++ jsNumDisplay (some db.port) "N/A" ++ "\n"
    ++ "- **Admin Login:** " ++ jsOrStr (db.admin.map (fun a => a.login)) "N/A" ++ "\n"
    ++ "- **Created:** " ++ db.created_at

/-- Serialization of the modelled `Database` fields for structured mode. -/
def dbToJson (db : Database) : Json :=
  .obj ([("id", .num db.id), ("name", .str db.name), ("type", .str db.dbType),
    ("status", .str db.status), ("location", .str db.location)]
    ++ (match db.host with | some h => [("host", Json.str h)] | none => [])
    ++ [("port", .num db.port)]
    ++ (match db.admin with
        | some a => [("admin", Json.obj [("login", .str a.login)])]
        | none => [])
    ++ [("created_at", .str db.created_at)])

/-- The parsed body of a successful `GET /api/v1/dbs` response. -/
structure DbsResp where
  dbs : Option (List Database)
  total : Option Nat
deriving DecidableEq

/-- The `{databases, total, limit, offset}` JSON document emitted by the
structured branch of `timeweb_list_databases`. -/
def listDatabasesJsonText (databases : List Database) (total limit offset : Nat) : String :=
  jsonStringify2 (.obj [("databases", .arr (databases.map dbToJson)),
    ("total", .num total), ("limit", .num limit), ("offset", .num offset)])

/-- The `timeweb_list_databases` handler (`src/tools/databases.ts` lines
28-63). -/
def listDatabasesHandler (args : ListArgs) (api : Except JsError DbsResp) :
    Except JsError ToolResult :=
  let limit := min (jsOrNat args.limit DEFAULT_LIMIT) MAX_LIMIT
  let offset := jsOrNat args.offset 0
  let format := args.format.getD .markdown
  match api with
  | .error e => .error e
  | .ok response =>
    let databases := response.dbs.getD []
    let total := jsOrNat response.total databases.length
    if format = .json then
      .ok ⟨listDatabasesJsonText databases total limit offset⟩
    else if databases.length = 0 then
      .ok ⟨"No databases found."⟩
    else
      .ok ⟨"# Database Clusters\n\n" ++ buildPaginationResponse total limit offset
        ++ "\n\n" ++ String.intercalate "\n\n" (databases.map formatDatabase)⟩

/-- Arguments of `timeweb_get_database`. -/
structure GetDbArgs where
  db_id : Nat
  format : Option ResponseFormat
deriving DecidableEq

/-- The parsed body of a successful `GET /api/v1/dbs/{id}` response. -/
structure DbResp where
  db : Database
deriving DecidableEq

/-- The `timeweb_get_database` handler (`src/tools/databases.ts` lines
74-90).  There is no `try`/`catch` in the handler and `handleApiError` is
never invoked by it: a rejected transport call propagates out of the
handler unchanged. -/
def getDatabaseHandler (args : GetDbArgs) (api : Except JsError DbResp) :
    Except JsError ToolResult :=
  let format := args.format.getD .markdown
  match api with
  | .error e => .error e
  | .ok response =>
    let db := response.db
    if format = .json then
      .ok ⟨jsonStringify2 (dbToJson db)⟩
    else
      .ok ⟨formatDatabase db⟩

/-- Arguments of `timeweb_create_database` (`src/tools/databases.ts` lines
98-105): `name`, `type`, `preset_id` required; `login`, `password`,
`hash_type`, `location` optional. -/
structure CreateDbArgs where
  name : String
  dbType : String
  preset_id : Nat
  login : Option String
  password : Option String
  hash_type : Option String
  location : Option String
deriving DecidableEq

/-- The request body assembled by the `timeweb_create_database` handler
(`src/tools/databases.ts` lines 110-119): the three required fields always,
then each optional field only when truthy. -/
def createDatabaseBody (args : CreateDbArgs) : List (String × Json) :=
  [("name", Json.str args.name), ("type", Json.str args.dbType),
    ("preset_id", Json.num args.preset_id)]
    ++ (if truthyStr args.login then [("login", Json.str (args.login.getD ""))] else [])
    ++ (if truthyStr args.password then [("password", Json.str (args.password.getD ""))] else [])
    ++ (if truthyStr args.hash_type then [("hash_type", Json.str (args.hash_type.getD ""))] else [])
    ++ (if truthyStr args.location then [("location", Json.str (args.location.getD ""))] else [])

/-! ## Schema validation and dispatch (`src/schemas/common.ts` and the
tool registry) -/

/-- One zod validation issue: the path (offending field) and the message. -/
structure ValidationIssue where
  path : String
  message : String
deriving DecidableEq

/-- The `limit` field of `paginationSchema` (`src/schemas/common.ts` lines
6-12): `z.number().int().min(1).max(MAX_LIMIT).optional()`.  Arguments are
modelled as integers; zod's `.int()` additionally rejects non-integers. -/
def validateLimit (x : Option Int) : Except ValidationIssue Unit :=
  match x with
  | none => .ok ()
  | some v =>
    if v < 1 then .error ⟨"limit", "Number must be greater than or equal to 1"⟩
    else if v > (MAX_LIMIT : Int) then
      .error ⟨"limit", "Number must be less than or equal to 100"⟩
    else .ok ()

/-- The `offset` field of `paginationSchema` (`src/schemas/common.ts` lines
13-17): `z.number().int().min(0).optional()`. -/
def validateOffset (x : Option Int) : Except ValidationIssue Unit :=
  match x with
  | none => .ok ()
  | some v =>
    if v < 0 then .error ⟨"offset", "Number must be greater than or equal to 0"⟩
    else .ok ()

/-- Outcome of dispatching a tool invocation through the registry:
either rejected by schema validation (naming the offending field) before the
handler runs, or completed after the recorded number of transport calls. -/
inductive DispatchOutcome where
  | invalidArgument (path : String) (message : String)
  | completed (transportCalls : Nat) (result : Except JsError ToolResult)

/-- Number of outbound transport calls an invocation performed. -/
def transportCallCount : DispatchOutcome → Nat
  | .invalidArgument _ _ => 0
  | .completed n _ => n

/-- Modelled from the spec: the tool registry (the MCP SDK's `server.tool`,
an external collaborator not part of this repository's sources) parses the
raw arguments against the declared zod schema and rejects the invocation
with an `InvalidArgument` error naming the offending field before the
handler — and hence the Transport Client — is ever invoked; on success the
handler runs and awaits its single transport call. -/
def dispatchListServers (rawLimit rawOffset : Option Int)
    (rawFormat : Option ResponseFormat) (transport : Except JsError ServersResp) :
    DispatchOutcome :=
  match validateLimit rawLimit with
  | .error e => .invalidArgument e.path e.message
  | .ok _ =>
    match validateOffset rawOffset with
    | .error e => .invalidArgument e.path e.message
    | .ok _ =>
      .completed 1
        (listServersHandler ⟨rawLimit.map Int.toNat, rawOffset.map Int.toNat, rawFormat⟩ transport)

/-! ## Auxiliary definitions used by the statements below -/

/-- The pagination line without the optional "more results" suffix; by
construction `buildPaginationResponse` is this followed by the suffix or
by the empty string. -/
def paginationBase (total limit offset : Nat) : String :=
  "Showing " ++ toString (offset + 1) ++ "-" ++ toString (min (offset + limit) total)
    ++ " of " ++ toString total ++ " items (Page " ++ toString (offset / limit + 1) ++ "/"
    ++ toString ((total + limit - 1) / limit) ++ ")"

/-- The text of a settled tool invocation (empty for a propagated error). -/
def textOf : Except JsError ToolResult → String
  | .ok r => r.text
  | .error _ => ""

/-- Boolean check that the first list is a leading segment of the second. -/
def strBegins : List Char → List Char → Bool
  | [], _ => true
  | _ :: _, [] => false
  | c :: cs, d :: ds => c == d && strBegins cs ds

/-- Boolean check that the document `s` begins with the text `pat`. -/
def beginsWith (pat s : String) : Bool :=
  strBegins pat.data s.data

/-- A sample server with every optional field absent. -/
def srvA : Server :=
  ⟨101, "web-1", "on", "ru-1", none, none, 0, 0, none, none, "2024-01-01T00:00:00Z"⟩

/-- A second sample server. -/
def srvB : Server :=
  ⟨102, "web-2", "off", "ru-1", none, none, 0, 0, none, none, "2024-01-02T00:00:00Z"⟩

end Timeweb

namespace Timeweb

/-! ## General lemmas about the embedded functions -/

/-- With enough fuel, `logFloorAux` computes `Nat.log 1024`. -/
theorem logFloorAux_eq : ∀ fuel n, n ≤ fuel → logFloorAux fuel n = Nat.log 1024 n := by
  intro fuel
  induction fuel with
  | zero =>
    intro n hn
    have hz : n = 0 := by omega
    subst hz
    rw [show logFloorAux 0 0 = 0 from rfl, Nat.log_zero_right]
  | succ fuel ih =>
    intro n hn
    by_cases hsmall : n < 1024
    · show (if n < 1024 then 0 else logFloorAux fuel (n / 1024) + 1) = Nat.log 1024 n
      rw [if_pos hsmall, Nat.log_of_lt hsmall]
    · have hge : 1024 ≤ n := by omega
      have hdiv : n / 1024 ≤ fuel := by
        have := Nat.div_lt_self (show 0 < n by omega) (show 1 < 1024 by norm_num)
        omega
      show (if n < 1024 then 0 else logFloorAux fuel (n / 1024) + 1) = Nat.log 1024 n
      rw [if_neg hsmall, ih _ hdiv, Nat.log_of_one_lt_of_le (by norm_num) hge]

/-- `mathLogFloor1024` is the base-1024 floor logarithm. -/
theorem mathLogFloor1024_eq (n : Nat) : mathLogFloor1024 n = Nat.log 1024 n :=
  logFloorAux_eq n n le_rfl

/-- Indices below the length of `sizes` select a listed unit. -/
theorem sizesGet_mem : ∀ i < 5, sizesGet i ∈ sizes := by decide

/-- Indices past the end of `sizes` render as "undefined". -/
theorem sizesGet_overflow (i : Nat) (h : 5 ≤ i) : sizesGet i = "undefined" := by
  unfold sizesGet
  rw [List.get?_eq_none.mpr (by simpa [sizes] using h)]
  rfl

/-- Natural ceiling division agrees with the rational ceiling. -/
theorem natCeilDiv_eq (t l : Nat) (hl : 1 ≤ l) :
    (t + l - 1) / l = ⌈(t : ℚ) / (l : ℚ)⌉₊ := by
  have hl0 : (0 : ℚ) < (l : ℚ) := by exact_mod_cast hl
  rcases Nat.eq_zero_or_pos t with rfl | ht
  · rw [Nat.div_eq_of_lt (by omega)]
    simp
  · have h1 : t + l - 1 = (t - 1) + l := by omega
    rw [h1, Nat.add_div_right _ (by omega)]
    have hA : (t - 1) / l * l < t :=
      lt_of_le_of_lt (Nat.div_mul_le_self _ _) (by omega)
    have hB : t ≤ ((t - 1) / l + 1) * l := by
      have hmod := Nat.div_add_mod (t - 1) l
      have hlt : (t - 1) % l < l := Nat.mod_lt _ (by omega)
      have hcomm : ((t - 1) / l + 1) * l = l * ((t - 1) / l) + l := by ring
      omega
    rw [eq_comm, Nat.ceil_eq_iff (Nat.succ_ne_zero _)]
    constructor
    · rw [Nat.succ_sub_one, lt_div_iff₀ hl0]
      exact_mod_cast hA
    · rw [div_le_iff₀ hl0]
      exact_mod_cast hB

/-- A string ending in a closing parenthesis never ends in the
"more results" note. -/
theorem paren_ne_note_suffix (X pre : String) : X ++ ")" ≠ pre ++ moreResultsNote := by
  intro h
  have hd := congrArg String.data h
  rw [String.data_append, String.data_append] at hd
  have h1 : (X.data ++ (")" : String).data).getLast? = some (Char.ofNat 41) := by
    rw [List.getLast?_append_of_ne_nil _ (by decide)]
    decide
  have h2 : (pre.data ++ moreResultsNote.data).getLast? = some (Char.ofNat 42) := by
    rw [List.getLast?_append_of_ne_nil _ (by decide)]
    decide
  rw [hd, h2] at h1
  exact absurd h1 (by decide)

/-- `buildPaginationResponse` splits into the base line and the optional
note. -/
theorem buildPagination_split (total limit offset : Nat) :
    buildPaginationResponse total limit offset
      = paginationBase total limit offset
        ++ (if offset + limit < total then moreResultsNote else "") := rfl

/-- The serialization of a JSON object never equals a string that does not
start with an opening brace. -/
theorem jsonStringify2_obj_ne (fields : List (String × Json)) (s : String)
    (hs : s.data.head? ≠ some (Char.ofNat 123)) : jsonStringify2 (.obj fields) ≠ s := by
  intro h
  apply hs
  rw [← h]
  cases fields with
  | nil =>
    show (jsonStringifyAt 0 (.obj [])).data.head? = _
    simp only [jsonStringifyAt]
    decide
  | cons f fs =>
    show (jsonStringifyAt 0 (.obj (f :: fs))).data.head? = _
    simp only [jsonStringifyAt, String.data_append]
    rfl

/-! ## Claim theorems -/

/-- C1 (code bug): at the failing input — a `timeweb_get_database` call whose
transport request rejects with HTTP 404 — the handler, having no `try`/`catch`,
propagates the raw rejection across the tool boundary instead of returning a
result, while the repository's own error translator `handleApiError` (which no
handler ever calls) would have produced exactly the message the claim and the
spec's Scenario B require. -/
theorem getDatabase_404_propagates :
    getDatabaseHandler ⟨42, none⟩
        (.error (.axios (some ⟨404, none⟩) none "Request failed with status code 404"))
      = .error (.axios (some ⟨404, none⟩) none "Request failed with status code 404")
    ∧ handleApiError (.axios (some ⟨404, none⟩) none "Request failed with status code 404")
      = "Error: Resource not found. Please check the ID is correct." :=
  ⟨rfl, by decide⟩

/-- C4 (amended): `formatBytes 0 = "0 B"`, `formatBytes 1536 = "1.5 KB"`,
`formatBytes 1073741824 = "1 GB"`; for positive inputs below `1024 ^ 5` the
rendered unit is one of the five listed units (so it never exceeds TB), but
from `1024 ^ 5` on the size-array index runs past the end and the rendered
unit token is "undefined". -/
theorem formatBytes_spec :
    formatBytes 0 = "0 B"
    ∧ formatBytes 1536 = "1.5 KB"
    ∧ formatBytes 1073741824 = "1 GB"
    ∧ (∀ bytes : Nat, 0 < bytes → bytes < 1024 ^ 5 →
        ∃ value u, u ∈ sizes ∧ formatBytes bytes = value ++ " " ++ u)
    ∧ (∀ bytes : Nat, 1024 ^ 5 ≤ bytes →
        ∃ value, formatBytes bytes = value ++ " " ++ "undefined") := by
  refine ⟨by decide, by decide, by decide, ?_, ?_⟩
  · intro bytes hpos hlt
    have hne : bytes ≠ 0 := by omega
    have hlog : mathLogFloor1024 bytes < 5 := by
      rw [mathLogFloor1024_eq]
      exact (Nat.lt_pow_iff_log_lt (by norm_num) hne).mp hlt
    refine ⟨toFixed2Display bytes (1024 ^ mathLogFloor1024 bytes),
      sizesGet (mathLogFloor1024 bytes), sizesGet_mem _ hlog, ?_⟩
    simp [formatBytes, hne]
  · intro bytes hge
    have hne : bytes ≠ 0 := by
      have : (0 : Nat) < 1024 ^ 5 := by norm_num
      omega
    have hlog : 5 ≤ mathLogFloor1024 bytes := by
      rw [mathLogFloor1024_eq]
      exact (Nat.pow_le_iff_le_log (by norm_num) hne).mp hge
    refine ⟨toFixed2Display bytes (1024 ^ mathLogFloor1024 bytes), ?_⟩
    rw [show ("undefined" : String) = sizesGet (mathLogFloor1024 bytes) from
      (sizesGet_overflow _ hlog).symm]
    simp [formatBytes, hne]

/-- Witness for C4 at `bytes = 1536`. -/
theorem formatBytes_spec_witness :
    ∃ value u, u ∈ sizes ∧ formatBytes 1536 = value ++ " " ++ u :=
  formatBytes_spec.2.2.2.1 1536 (by decide) (by decide)

/-- C4 counterexample: the claim's "unit never exceeds TB" fails at
`1024 ^ 5` — the rendered unit token is "undefined", which is not one of the
units of the size table. -/
theorem formatBytes_unit_overflow :
    formatBytes (1024 ^ 5) = "1 undefined" ∧ "undefined" ∉ sizes :=
  ⟨by decide, by decide⟩

/-- C7: the error translation is a pure function of the failed response's
status code — for any axios failure carrying status 404, independently of its
code or message, the result is in the "Resource not found" message class,
and any failure carrying status 429 yields exactly the fixed rate-limit
message. -/
theorem handleApiError_by_status (code : Option String) (msg : String) (r : HttpResp) :
    (r.status = 404 →
      ∃ rest, handleApiError (.axios (some r) code msg) = "Error: Resource not found. " ++ rest)
    ∧ (r.status = 429 →
      handleApiError (.axios (some r) code msg)
        = "Error: Rate limit exceeded. Please wait before making more requests.") := by
  obtain ⟨s, m⟩ := r
  constructor
  · intro h
    simp only at h
    subst h
    exact ⟨_, rfl⟩
  · intro h
    simp only at h
    subst h
    rfl

/-- Witness for C7 at a 404 and a 429 failure. -/
theorem handleApiError_by_status_witness :
    ∃ rest, handleApiError (.axios (some ⟨404, none⟩) none "boom")
      = "Error: Resource not found. " ++ rest :=
  (handleApiError_by_status none "boom" ⟨404, none⟩).1 rfl

/-- C8: `makeApiRequest` without a prior `initializeApiClient` fails with the
"API client not initialized" error before any request is formed; with an
initialized client the single request carries that client's bearer token; and
`main` exits with code 1 when the token environment variable is absent or
empty, before any tool is registered. -/
theorem no_request_without_token :
    (∀ method url : String,
      makeApiRequest none method url
        = .error "API client not initialized. Set TIMEWEB_CLOUD_TOKEN environment variable.")
    ∧ (∀ token method url : String,
        makeApiRequest (some (initializeApiClient token)) method url
          = .ok ⟨token, method, url⟩)
    ∧ mainStartup none = .exitNoToken 1
    ∧ mainStartup (some "") = .exitNoToken 1
    ∧ (∀ token : String, token ≠ "" →
        mainStartup (some token) = .running (initializeApiClient token) true) := by
  refine ⟨fun _ _ => rfl, fun _ _ _ => rfl, rfl, by decide, ?_⟩
  intro token h
  simp [mainStartup, h]

/-- Witness for C8. -/
theorem no_request_without_token_witness :
    makeApiRequest none "GET" "/api/v1/dbs/42"
      = .error "API client not initialized. Set TIMEWEB_CLOUD_TOKEN environment variable."
    ∧ mainStartup (some "secret-token")
      = .running (initializeApiClient "secret-token") true :=
  ⟨no_request_without_token.1 "GET" "/api/v1/dbs/42",
   no_request_without_token.2.2.2.2 "secret-token" (by decide)⟩

/-- C6: a create invocation that supplies only the required arguments
assembles a body whose key set is exactly the required fields — no omitted
optional argument appears (as `null`, empty, or otherwise) — for both
`timeweb_create_database` (`name`, `type`, `preset_id`) and
`timeweb_create_server` (`name`, `os_id`). -/
theorem create_body_required_only
    (name dbType : String) (preset_id : Nat) (srvName : String) (os_id : Nat) :
    (createDatabaseBody ⟨name, dbType, preset_id, none, none, none, none⟩).map Prod.fst
      = ["name", "type", "preset_id"]
    ∧ (createServerBody
        ⟨srvName, os_id, none, none, none, none, none, none, none, none⟩).map Prod.fst
      = ["name", "os_id"] :=
  ⟨rfl, rfl⟩

/-- C10: optional body fields guarded by a JS truthiness test are omitted
when the caller supplies a falsy value — an empty string for
`login`/`password`/`hash_type`/`location` of `timeweb_create_database`, zero
`bandwidth` or an empty `location` for `timeweb_create_server` — producing
exactly the body of the same invocation without that argument. -/
theorem falsy_optionals_omitted
    (name dbType : String) (preset_id : Nat) (lg pw ht loc : Option String)
    (srvName : String) (os_id : Nat) (preset cpu ram disk bw : Option Nat)
    (sLoc : Option String) (keys : Option (List Nat)) (ddos : Option Bool) :
    createDatabaseBody ⟨name, dbType, preset_id, some "", pw, ht, loc⟩
      = createDatabaseBody ⟨name, dbType, preset_id, none, pw, ht, loc⟩
    ∧ createDatabaseBody ⟨name, dbType, preset_id, lg, some "", ht, loc⟩
      = createDatabaseBody ⟨name, dbType, preset_id, lg, none, ht, loc⟩
    ∧ createDatabaseBody ⟨name, dbType, preset_id, lg, pw, some "", loc⟩
      = createDatabaseBody ⟨name, dbType, preset_id, lg, pw, none, loc⟩
    ∧ createDatabaseBody ⟨name, dbType, preset_id, lg, pw, ht, some ""⟩
      = createDatabaseBody ⟨name, dbType, preset_id, lg, pw, ht, none⟩
    ∧ createServerBody ⟨srvName, os_id, preset, cpu, ram, disk, some 0, sLoc, keys, ddos⟩
      = createServerBody ⟨srvName, os_id, preset, cpu, ram, disk, none, sLoc, keys, ddos⟩
    ∧ createServerBody ⟨srvName, os_id, preset, cpu, ram, disk, bw, some "", keys, ddos⟩
      = createServerBody ⟨srvName, os_id, preset, cpu, ram, disk, bw, none, keys, ddos⟩ :=
  ⟨rfl, rfl, rfl, rfl, rfl, rfl⟩

/-- C5: an out-of-range `limit` (0 or 101, violating the declared
`z.number().int().min(1).max(100)` schema) is rejected with an error naming
the `limit` field, and the invocation performs zero transport calls. -/
theorem validation_precedes_io (v : Int) (hv : v = 0 ∨ v = 101)
    (rawOffset : Option Int) (rawFormat : Option ResponseFormat)
    (transport : Except JsError ServersResp) :
    (∃ message, dispatchListServers (some v) rawOffset rawFormat transport
        = .invalidArgument "limit" message)
    ∧ transportCallCount (dispatchListServers (some v) rawOffset rawFormat transport) = 0 := by
  rcases hv with rfl | rfl
  · exact ⟨⟨_, rfl⟩, rfl⟩
  · exact ⟨⟨_, rfl⟩, rfl⟩

/-- Witness for C5 at `limit = 0`. -/
theorem validation_precedes_io_witness :
    (∃ message, dispatchListServers (some 0) none none (.ok ⟨some [], none⟩)
        = .invalidArgument "limit" message)
    ∧ transportCallCount (dispatchListServers (some 0) none none (.ok ⟨some [], none⟩)) = 0 :=
  validation_precedes_io 0 (Or.inl rfl) none none (.ok ⟨some [], none⟩)

/-- C2: for any `total`, `1 ≤ limit ≤ 100` and `offset`, the pagination
summary reports the page number `⌊offset / limit⌋ + 1` and `⌈total / limit⌉`
total pages, and it carries the "more results" note exactly when
`offset + limit < total`. -/
theorem pagination_math (total limit offset : Nat) (h1 : 1 ≤ limit) (_h2 : limit ≤ 100) :
    buildPaginationResponse total limit offset
      = "Showing " ++ toString (offset + 1) ++ "-" ++ toString (min (offset + limit) total)
        ++ " of " ++ toString total ++ " items (Page "
        ++ toString (⌊(offset : ℚ) / (limit : ℚ)⌋₊ + 1) ++ "/"
        ++ toString (⌈(total : ℚ) / (limit : ℚ)⌉₊) ++ ")"
        ++ (if offset + limit < total then moreResultsNote else "")
    ∧ ((∃ preceding, buildPaginationResponse total limit offset
          = preceding ++ moreResultsNote)
        ↔ offset + limit < total) := by
  have hfloor : ⌊(offset : ℚ) / (limit : ℚ)⌋₊ = offset / limit :=
    Nat.floor_div_eq_div offset limit
  have hceil : ⌈(total : ℚ) / (limit : ℚ)⌉₊ = (total + limit - 1) / limit :=
    (natCeilDiv_eq total limit h1).symm
  constructor
  · rw [hfloor, hceil]
    rfl
  · constructor
    · rintro ⟨pre, hp⟩
      by_contra hno
      rw [buildPagination_split, if_neg hno, String.append_empty] at hp
      exact paren_ne_note_suffix _ pre hp
    · intro h
      exact ⟨paginationBase total limit offset, by rw [buildPagination_split, if_pos h]⟩

/-- Witness for C2 at `total = 2`, `limit = 50`, `offset = 0`. -/
theorem pagination_math_witness :
    buildPaginationResponse 2 50 0
      = "Showing " ++ toString (0 + 1) ++ "-" ++ toString (min (0 + 50) 2)
        ++ " of " ++ toString 2 ++ " items (Page "
        ++ toString (⌊((0 : Nat) : ℚ) / ((50 : Nat) : ℚ)⌋₊ + 1) ++ "/"
        ++ toString (⌈((2 : Nat) : ℚ) / ((50 : Nat) : ℚ)⌉₊) ++ ")"
        ++ (if 0 + 50 < 2 then moreResultsNote else "")
    ∧ ((∃ preceding, buildPaginationResponse 2 50 0 = preceding ++ moreResultsNote)
        ↔ 0 + 50 < 2) :=
  pagination_math 2 50 0 (by decide) (by decide)

/-- C3 (amended): in markdown mode an empty page yields the fixed
"No servers found." sentence with no pagination summary, and a non-empty page
yields the "# Cloud Servers" heading, the pagination summary, and the
per-server sections separated by blank lines; in particular the Scenario A
invocation (`limit 50`, `offset 0`, backend total 2) returns the document
that begins with the heading followed by "Showing 1-2 of 2 items (Page 1/1)",
two per-server sections, and no more-results note. -/
theorem listServers_markdown_rendering (args : ListArgs) (resp : ServersResp)
    (hfmt : args.format.getD ResponseFormat.markdown = ResponseFormat.markdown) :
    (resp.servers.getD [] = [] →
      listServersHandler args (.ok resp) = .ok ⟨"No servers found."⟩)
    ∧ (resp.servers.getD [] ≠ [] →
      listServersHandler args (.ok resp)
        = .ok ⟨"# Cloud Servers\n\n"
            ++ buildPaginationResponse (jsOrNat resp.total (resp.servers.getD []).length)
                (min (jsOrNat args.limit DEFAULT_LIMIT) MAX_LIMIT) (jsOrNat args.offset 0)
            ++ "\n\n"
            ++ String.intercalate "\n\n" ((resp.servers.getD []).map formatServer)⟩)
    ∧ (∀ s1 s2 : Server,
      listServersHandler ⟨some 50, some 0, some ResponseFormat.markdown⟩
          (.ok ⟨some [s1, s2], some 2⟩)
        = .ok ⟨"# Cloud Servers\n\nShowing 1-2 of 2 items (Page 1/1)\n\n"
            ++ formatServer s1 ++ "\n\n" ++ formatServer s2⟩) := by
  refine ⟨?_, ?_, ?_⟩
  · intro hempty
    simp [listServersHandler, hfmt, hempty]
  · intro hne
    simp [listServersHandler, hfmt, List.length_eq_zero, hne]
  · intro s1 s2
    have hb : (("# Cloud Servers\n\n" ++ buildPaginationResponse 2 50 0) ++ "\n\n")
        = "# Cloud Servers\n\nShowing 1-2 of 2 items (Page 1/1)\n\n" := by decide
    show Except.ok (ToolResult.mk
        ((("# Cloud Servers\n\n" ++ buildPaginationResponse 2 50 0) ++ "\n\n")
          ++ ((formatServer s1 ++ "\n\n") ++ formatServer s2))) = _
    rw [hb]
    simp [String.append_assoc]

/-- Witness for C3 at the Scenario A input with the two sample servers. -/
theorem listServers_markdown_rendering_witness :
    listServersHandler ⟨some 50, some 0, some ResponseFormat.markdown⟩
        (.ok ⟨some [srvA, srvB], some 2⟩)
      = .ok ⟨"# Cloud Servers\n\nShowing 1-2 of 2 items (Page 1/1)\n\n"
          ++ formatServer srvA ++ "\n\n" ++ formatServer srvB⟩ :=
  (listServers_markdown_rendering ⟨some 50, some 0, some ResponseFormat.markdown⟩
    ⟨some [srvA, srvB], some 2⟩ rfl).2.2 srvA srvB

/-- C3 counterexample: at the Scenario A input the returned document does not
begin with "Showing 1-2 of 2 items (Page 1/1)" — it begins with the
"# Cloud Servers" heading. -/
theorem listServers_scenarioA_not_first :
    beginsWith "Showing 1-2 of 2 items (Page 1/1)"
        (textOf (listServersHandler ⟨some 50, some 0, some ResponseFormat.markdown⟩
          (.ok ⟨some [srvA, srvB], some 2⟩))) = false
    ∧ beginsWith "# Cloud Servers"
        (textOf (listServersHandler ⟨some 50, some 0, some ResponseFormat.markdown⟩
          (.ok ⟨some [srvA, srvB], some 2⟩))) = true :=
  ⟨by decide, by decide⟩

/-- C9: when the resolved output format is "json" the list handlers return
the serialized collection together with `total`, `limit` and `offset` for any
page — the JSON branch precedes the emptiness check — and the fixed
"no items" sentence is never the structured result. -/
theorem listTools_json_mode (args : ListArgs) (sresp : ServersResp) (dresp : DbsResp)
    (hfmt : args.format.getD ResponseFormat.markdown = ResponseFormat.json) :
    listServersHandler args (.ok sresp)
      = .ok ⟨listServersJsonText (sresp.servers.getD [])
          (jsOrNat sresp.total (sresp.servers.getD []).length)
          (min (jsOrNat args.limit DEFAULT_LIMIT) MAX_LIMIT) (jsOrNat args.offset 0)⟩
    ∧ listDatabasesHandler args (.ok dresp)
      = .ok ⟨listDatabasesJsonText (dresp.dbs.getD [])
          (jsOrNat dresp.total (dresp.dbs.getD []).length)
          (min (jsOrNat args.limit DEFAULT_LIMIT) MAX_LIMIT) (jsOrNat args.offset 0)⟩
    ∧ listServersHandler args (.ok sresp) ≠ .ok ⟨"No servers found."⟩
    ∧ listDatabasesHandler args (.ok dresp) ≠ .ok ⟨"No databases found."⟩ := by
  have h1 : listServersHandler args (.ok sresp)
      = .ok ⟨listServersJsonText (sresp.servers.getD [])
          (jsOrNat sresp.total (sresp.servers.getD []).length)
          (min (jsOrNat args.limit DEFAULT_LIMIT) MAX_LIMIT) (jsOrNat args.offset 0)⟩ := by
    simp [listServersHandler, hfmt]
  have h2 : listDatabasesHandler args (.ok dresp)
      = .ok ⟨listDatabasesJsonText (dresp.dbs.getD [])
          (jsOrNat dresp.total (dresp.dbs.getD []).length)
          (min (jsOrNat args.limit DEFAULT_LIMIT) MAX_LIMIT) (jsOrNat args.offset 0)⟩ := by
    simp [listDatabasesHandler, hfmt]
  refine ⟨h1, h2, ?_, ?_⟩
  · rw [h1]
    intro hcontra
    have htext := congrArg (fun r => textOf r) hcontra
    exact jsonStringify2_obj_ne _ _ (by decide) htext
  · rw [h2]
    intro hcontra
    have htext := congrArg (fun r => textOf r) hcontra
    exact jsonStringify2_obj_ne _ _ (by decide) htext

/-- Witness for C9 at an empty page in json mode. -/
theorem listTools_json_mode_witness :
    listServersHandler ⟨none, none, some ResponseFormat.json⟩ (.ok ⟨some [], none⟩)
      = .ok ⟨listServersJsonText [] 0 50 0⟩
    ∧ listDatabasesHandler ⟨none, none, some ResponseFormat.json⟩ (.ok ⟨some [], none⟩)
      = .ok ⟨listDatabasesJsonText [] 0 50 0⟩
    ∧ listServersHandler ⟨none, none, some ResponseFormat.json⟩ (.ok ⟨some [], none⟩)
      ≠ .ok ⟨"No servers found."⟩
    ∧ listDatabasesHandler ⟨none, none, some ResponseFormat.json⟩ (.ok ⟨some [], none⟩)
      ≠ .ok ⟨"No databases found."⟩ :=
  listTools_json_mode ⟨none, none, some ResponseFormat.json⟩ ⟨some [], none⟩
    ⟨some [], none⟩ rfl

end Timeweb
